import Mathlib

/-!
Shallow embedding of two source files of the ipfixcol2 message-processing
core: `src/core/message_garbage.c` and `src/core/parser_plugin.c`.

External collaborators (the Transport Session Registry / `ipx_parser_*`,
the plugin context `ipx_ctx_*`, and the feedback pipe `ipx_fpipe_*`) are
modelled as oracles: each embedded function takes an environment record
holding the results those external calls would return, and produces, next
to its return code, the ordered list of observable actions it performs
(messages passed downstream, messages destroyed, registry calls, feedback
writes, log lines).  Messages are identified by `Nat` ids; pointers that
may be NULL are modelled as `Option` or as `Nat` with `0` playing NULL.
-/

/-- Return codes of the `ipx_return_code` family used by the embedded code
(`IPX_OK`, `IPX_READY`, `IPX_ERR_FORMAT`, `IPX_ERR_DENIED`,
`IPX_ERR_NOMEM`, `IPX_ERR_NOTFOUND`, `IPX_ERR_ARG`). -/
inductive IpxCode where
  | ok
  | ready
  | errFormat
  | errDenied
  | errNomem
  | errNotfound
  | errArg
  deriving DecidableEq, Repr

/-- Message type discriminants (`IPX_MSG_IPFIX`, `IPX_MSG_SESSION`,
`IPX_MSG_GARBAGE`, `IPX_MSG_TERMINATE`). -/
inductive MsgType where
  | ipfix
  | session
  | garbage
  | terminate
  deriving DecidableEq, Repr

/-- Transport protocol kind of a session (`fds_session_type`). -/
inductive SessionType where
  | tcp
  | udp
  | sctp
  | file
  deriving DecidableEq, Repr

/-- Transport Session identity: an identifier plus the protocol kind read
through `session->type` by the embedded code. -/
structure Session where
  ident : Nat
  type : SessionType
  deriving DecidableEq, Repr

/-- Transport Session event kinds (`IPX_MSG_SESSION_OPEN`,
`IPX_MSG_SESSION_CLOSE`). -/
inductive SessionEvent where
  | opened
  | close
  deriving DecidableEq, Repr

/-- Observable actions performed by the plugin code, in program order.
`msgPass` is `ipx_ctx_msg_pass` (forward a message, identified by id, on
the outbound channel); `ipfixDestroy` is `ipx_msg_ipfix_destroy`;
`sessionBlock` is `ipx_parser_session_block`; `sessionRemoveCall` records
a call to `ipx_parser_session_remove` together with the return code the
Registry reported; `fpipeWrite` is `ipx_fpipe_write` (a close-request on
the feedback channel); `logWarning`/`logError` are the log macros. -/
inductive Act where
  | msgPass (m : Nat)
  | ipfixDestroy (m : Nat)
  | sessionBlock (ts : Session)
  | sessionRemoveCall (ts : Session) (rc : IpxCode)
  | fpipeWrite (ts : Session)
  | logWarning
  | logError
  deriving DecidableEq, Repr

/-- Does an action mutate session/template state owned by the Registry?
`sessionBlock` always does; a `sessionRemoveCall` does exactly when the
Registry reported success (on `IPX_ERR_NOTFOUND` etc. nothing was
removed); forwarding, destroying messages and logging never do. -/
def Act.isStateMutation : Act → Bool
  | Act.sessionBlock _ => true
  | Act.sessionRemoveCall _ rc => rc = IpxCode.ok
  | _ => false

/-- Does an action concern the given session (block, remove or feedback
write for it)? -/
def Act.mentions (ts : Session) : Act → Bool
  | Act.sessionBlock s => s = ts
  | Act.sessionRemoveCall s _ => s = ts
  | Act.fpipeWrite s => s = ts
  | _ => false

/-- Oracle environment for `parser_plugin_remove_session`:
whether `ipx_ctx_fpipe_get` returns a feedback pipe, the result
(return code, optional garbage-message id) each call
`ipx_parser_session_remove(parser, ts, &garbage)` would produce, and the
result each `ipx_fpipe_write(feedback, ts)` would produce. -/
structure RemoveEnv where
  feedback : Bool
  sessionRemoveResult : Session → IpxCode × Option Nat
  fpipeWriteResult : Session → IpxCode

/-- Embedding of `parser_plugin_remove_session` (parser_plugin.c:154-184).
No feedback pipe: log a warning, hard-remove the session from the
Registry, forward the resulting garbage when the removal succeeded and
produced one, and return `IPX_OK` unconditionally.  Feedback pipe
available: block the session in the Registry and write one close-request
to the pipe; if the write fails, log an error and return `IPX_ERR_ARG`,
otherwise return `IPX_OK`. -/
def parser_plugin_remove_session (env : RemoveEnv) (ts : Session) :
    IpxCode × List Act :=
  if env.feedback = false then
    match env.sessionRemoveResult ts with
    | (rc, garbage) =>
      (IpxCode.ok,
        [Act.logWarning, Act.sessionRemoveCall ts rc] ++
          (match rc, garbage with
           | IpxCode.ok, some g => [Act.msgPass g]
           | _, _ => []))
  else
    if env.fpipeWriteResult ts ≠ IpxCode.ok then
      (IpxCode.errArg,
        [Act.sessionBlock ts, Act.fpipeWrite ts, Act.logError])
    else
      (IpxCode.ok, [Act.sessionBlock ts, Act.fpipeWrite ts])

/-- Oracle environment for `parser_plugin_process_ipfix`:
the result of `ipx_parser_process(parser, &ipfix, &garbage)` — return
code, the (possibly rewritten) IPFIX message id behind the in/out pointer,
and the optional garbage-message id — plus the session recorded in the
message context (`ipx_msg_ipfix_get_ctx(ipfix)->session`) and the
environment of the session-removal helper it may call. -/
structure IpfixEnv where
  processResult : IpxCode × Nat × Option Nat
  msgSession : Session
  remove : RemoveEnv

/-- Embedding of `parser_plugin_process_ipfix` (parser_plugin.c:205-242).
On `IPX_OK`: pass the IPFIX message, then the garbage message if any.
On `IPX_ERR_DENIED`: destroy the message silently, return `IPX_OK`.
On `IPX_ERR_FORMAT` for a UDP session: destroy the message, return
`IPX_OK`.  Otherwise: run `parser_plugin_remove_session`, destroy the
message, and return the removal's code. -/
def parser_plugin_process_ipfix (env : IpfixEnv) : IpxCode × List Act :=
  match env.processResult with
  | (rc, ipfix, garbage) =>
    if rc = IpxCode.ok then
      (IpxCode.ok,
        [Act.msgPass ipfix] ++
          (match garbage with
           | some g => [Act.msgPass g]
           | none => []))
    else if rc = IpxCode.errDenied then
      (IpxCode.ok, [Act.ipfixDestroy ipfix])
    else if rc = IpxCode.errFormat ∧ env.msgSession.type = SessionType.udp then
      (IpxCode.ok, [Act.ipfixDestroy ipfix])
    else
      match parser_plugin_remove_session env.remove env.msgSession with
      | (rc2, acts) => (rc2, acts ++ [Act.ipfixDestroy ipfix])

/-- Oracle environment for `parser_plugin_process_session`: the event
carried by the Transport Session message, the session it names, and the
result `ipx_parser_session_remove` would report for it. -/
structure SessionMsgEnv where
  event : SessionEvent
  session : Session
  sessionRemoveResult : IpxCode × Option Nat

/-- Embedding of `parser_plugin_process_session` (parser_plugin.c:102-137).
Non-close events are ignored.  On close, the Registry's remove is called:
on success the garbage is forwarded (a NULL garbage is logged as an
allocation warning); `IPX_ERR_NOTFOUND` logs a warning, any other failure
logs an error.  The function always returns `IPX_OK`. -/
def parser_plugin_process_session (env : SessionMsgEnv) :
    IpxCode × List Act :=
  if env.event ≠ SessionEvent.close then
    (IpxCode.ok, [])
  else
    match env.sessionRemoveResult with
    | (rc, garbage) =>
      if rc = IpxCode.ok then
        match garbage with
        | none =>
          (IpxCode.ok,
            [Act.sessionRemoveCall env.session rc, Act.logWarning])
        | some g =>
          (IpxCode.ok,
            [Act.sessionRemoveCall env.session rc, Act.msgPass g])
      else
        (IpxCode.ok,
          [Act.sessionRemoveCall env.session rc,
            if rc = IpxCode.errNotfound then Act.logWarning
            else Act.logError])

/-- Oracle environment for `parser_plugin_process`: the inbound message's
type tag and id, plus the environments of the two dispatched handlers. -/
structure ProcessEnv where
  msgType : MsgType
  msgId : Nat
  ipfixEnv : IpfixEnv
  sessionEnv : SessionMsgEnv

/-- Embedding of `parser_plugin_process` (parser_plugin.c:244-274).
Dispatch on the message type: IPFIX messages go to the IPFIX handler;
Transport Session messages go to the session handler and the original
message is re-forwarded afterwards; any other type is logged and
forwarded unchanged.  A non-`IPX_OK` code from a handler is turned into
`IPX_ERR_NOMEM`; otherwise `IPX_OK` is returned. -/
def parser_plugin_process (env : ProcessEnv) : IpxCode × List Act :=
  let inner :=
    match env.msgType with
    | MsgType.ipfix => parser_plugin_process_ipfix env.ipfixEnv
    | MsgType.session =>
      match parser_plugin_process_session env.sessionEnv with
      | (rc, acts) => (rc, acts ++ [Act.msgPass env.msgId])
    | _ => (IpxCode.ok, [Act.logWarning, Act.msgPass env.msgId])
  if inner.1 ≠ IpxCode.ok then (IpxCode.errNomem, inner.2)
  else (IpxCode.ok, inner.2)

/-- The `IPX_PU_IEMGR` bit of the update mask (the dictionary flag of
`ipx_plugin_update`; a single bit flag, modelled as bit 0 — the embedded
code only tests membership `what & IPX_PU_IEMGR`). -/
def IPX_PU_IEMGR : Nat := 1

/-- Embedding of `parser_plugin_update_prepare` (parser_plugin.c:276-292).
It only inspects the change mask: without the `IPX_PU_IEMGR` bit it
returns `IPX_OK` (nothing to do), with it `IPX_READY`; it performs no
action in either case. -/
def parser_plugin_update_prepare (what : Nat) : IpxCode × List Act :=
  if what &&& IPX_PU_IEMGR = 0 then
    (IpxCode.ok, [])
  else
    (IpxCode.ready, [])

/-- Embedding of `parser_plugin_update_abort` (parser_plugin.c:356-363):
the body is empty, so the action trace is empty. -/
def parser_plugin_update_abort : List Act := []

/-- Embedding of `parser_plugin_update_fail_cb` (parser_plugin.c:308-321),
folded over the session list by `ipx_parser_session_for`.  The
accumulator is the shared `struct parser_plugin_update_fail` status
paired with the action trace so far.  If the status is already non-OK the
callback returns at once (short-circuit); otherwise it runs
`parser_plugin_remove_session` and records a failing code in the
status. -/
def parser_plugin_update_fail_cb (env : RemoveEnv) (st : IpxCode × List Act)
    (ts : Session) : IpxCode × List Act :=
  if st.1 ≠ IpxCode.ok then
    st
  else
    match parser_plugin_remove_session env ts with
    | (rc, acts) =>
      (if rc ≠ IpxCode.ok then rc else st.1, st.2 ++ acts)

/-- Oracle environment for `parser_plugin_update_commit`: the result of
`ipx_parser_ie_source(parser, iemgr, &garbage)`, the sessions the
Registry's `ipx_parser_session_for` iterates over (in order), and the
removal environment used by the failure callback. -/
structure CommitEnv where
  ieSourceResult : IpxCode × Option Nat
  sessions : List Session
  remove : RemoveEnv

/-- Embedding of `parser_plugin_update_commit` (parser_plugin.c:323-354).
If the Registry rebind (`ie_source`) succeeds, forward the garbage (if
any) and return `IPX_OK`.  Otherwise iterate the failure callback over
every known session with a shared status, and return `IPX_ERR_DENIED`
when the final status is non-OK, else `IPX_OK`. -/
def parser_plugin_update_commit (env : CommitEnv) : IpxCode × List Act :=
  match env.ieSourceResult with
  | (rc, garbage) =>
    if rc = IpxCode.ok then
      (IpxCode.ok,
        match garbage with
        | some g => [Act.msgPass g]
        | none => [])
    else
      let r := env.sessions.foldl (parser_plugin_update_fail_cb env.remove)
        (IpxCode.ok, [])
      if r.1 ≠ IpxCode.ok then (IpxCode.errDenied, r.2)
      else (IpxCode.ok, r.2)

/-! ### Garbage message (message_garbage.c) -/

/-- Embedding of `struct ipx_msg_garbage` (message_garbage.c:58-69): the
common message header (its type discriminant), the wrapped object pointer
and the destructor function pointer (a `Nat` id, `0` playing NULL). -/
structure ipx_msg_garbage where
  msg_header : MsgType
  object_ptr : Nat
  object_destructor : Nat
  deriving DecidableEq, Repr

/-- Observable actions of the garbage-message functions: envelope
allocation (with its success flag), header initialisation, invoking the
stored destructor on the stored object, destroying the header, freeing
the envelope, and (never emitted by this code, present so frame
conditions are meaningful) freeing or mutating the wrapped object. -/
inductive GcAction where
  | allocEnvelope (ok : Bool)
  | headerInit
  | invokeDestructor (cb : Nat) (obj : Nat)
  | headerDestroy
  | freeEnvelope
  | freeObject (obj : Nat)
  | writeObject (obj : Nat)
  deriving DecidableEq, Repr

/-- Embedding of `ipx_msg_garbage_create` (message_garbage.c:75-90).
`allocOk` is the oracle for `malloc`.  On allocation failure the function
returns NULL (`none`); otherwise it initialises the header with type
`IPX_MSG_GARBAGE` and stores the object pointer and the destructor
unchanged.  The wrapped object itself is never touched. -/
def ipx_msg_garbage_create (allocOk : Bool) (object : Nat) (callback : Nat) :
    Option ipx_msg_garbage × List GcAction :=
  if allocOk = false then
    (none, [GcAction.allocEnvelope false])
  else
    (some { msg_header := MsgType.garbage, object_ptr := object,
            object_destructor := callback },
      [GcAction.allocEnvelope true, GcAction.headerInit])

/-- Embedding of `ipx_msg_garbage_destroy` (message_garbage.c:93-102):
invoke the stored destructor on the stored object, destroy the message
header, then free the envelope. -/
def ipx_msg_garbage_destroy (msg : ipx_msg_garbage) : List GcAction :=
  [GcAction.invokeDestructor msg.object_destructor msg.object_ptr,
    GcAction.headerDestroy, GcAction.freeEnvelope]

/-! ### Concrete environments used by witnesses and counterexamples -/

/-- A removal environment with no feedback pipe and a Registry whose
removals succeed without garbage. -/
def remEnvNoFb : RemoveEnv :=
  { feedback := false
    sessionRemoveResult := fun _ => (IpxCode.ok, none)
    fpipeWriteResult := fun _ => IpxCode.ok }

/-- A removal environment with a feedback pipe whose writes succeed. -/
def remEnvFbOk : RemoveEnv :=
  { feedback := true
    sessionRemoveResult := fun _ => (IpxCode.ok, none)
    fpipeWriteResult := fun _ => IpxCode.ok }

/-- A removal environment with a feedback pipe whose writes fail. -/
def remEnvFbBad : RemoveEnv :=
  { feedback := true
    sessionRemoveResult := fun _ => (IpxCode.ok, none)
    fpipeWriteResult := fun _ => IpxCode.errNomem }

/-- A TCP session used in concrete scenarios. -/
def tsTcp : Session := { ident := 1, type := SessionType.tcp }

/-- A UDP session used in concrete scenarios. -/
def tsUdp : Session := { ident := 2, type := SessionType.udp }

/-! ### C1 -/

/-- C1: when `ipx_parser_process` succeeds and returns a non-null garbage
message, `parser_plugin_process_ipfix` forwards exactly the parsed IPFIX
message and then the garbage message: the IPFIX message goes out strictly
before the garbage message, and the garbage message immediately after
it. -/
theorem c1_garbage_after_ipfix (env : IpfixEnv) (m g : Nat)
    (h : env.processResult = (IpxCode.ok, m, some g)) :
    parser_plugin_process_ipfix env =
      (IpxCode.ok, [Act.msgPass m, Act.msgPass g]) := by
  simp [parser_plugin_process_ipfix, h]

/-- C1 witness: a concrete successful parse with garbage. -/
theorem c1_garbage_after_ipfix_witness :
    parser_plugin_process_ipfix
        { processResult := (IpxCode.ok, 10, some 11), msgSession := tsTcp,
          remove := remEnvNoFb } =
      (IpxCode.ok, [Act.msgPass 10, Act.msgPass 11]) :=
  c1_garbage_after_ipfix
    { processResult := (IpxCode.ok, 10, some 11), msgSession := tsTcp,
      remove := remEnvNoFb } 10 11 rfl

/-! ### C4 -/

/-- C4: for a handle built by `ipx_msg_garbage_create` and passed once to
`ipx_msg_garbage_destroy`, the stored destructor is invoked on the stored
object exactly once, and the envelope is released afterwards: the destroy
trace is exactly one destructor invocation followed by header destruction
and the envelope free. -/
theorem c4_destructor_exactly_once (object cb : Nat) (m : ipx_msg_garbage)
    (h : (ipx_msg_garbage_create true object cb).1 = some m) :
    ipx_msg_garbage_destroy m =
      [GcAction.invokeDestructor cb object, GcAction.headerDestroy,
        GcAction.freeEnvelope] ∧
    (ipx_msg_garbage_destroy m).count (GcAction.invokeDestructor cb object)
      = 1 := by
  simp [ipx_msg_garbage_create] at h
  subst h
  constructor
  · rfl
  · simp [ipx_msg_garbage_destroy, List.count_cons]

/-- C4 witness: a concrete create/destroy pair. -/
theorem c4_destructor_exactly_once_witness :
    ipx_msg_garbage_destroy
        { msg_header := MsgType.garbage, object_ptr := 5,
          object_destructor := 7 } =
      [GcAction.invokeDestructor 7 5, GcAction.headerDestroy,
        GcAction.freeEnvelope] ∧
    (ipx_msg_garbage_destroy
        { msg_header := MsgType.garbage, object_ptr := 5,
          object_destructor := 7 }).count (GcAction.invokeDestructor 7 5)
      = 1 :=
  c4_destructor_exactly_once 5 7
    { msg_header := MsgType.garbage, object_ptr := 5, object_destructor := 7 }
    rfl

/-! ### C5 -/

/-- C5: `parser_plugin_update_prepare` returns the nothing-to-do status
(`IPX_OK`) exactly when the mask lacks the `IPX_PU_IEMGR` bit and the
ready status (`IPX_READY`) when it has it, with an empty action trace
(no session or parser state touched) in both cases; and
`parser_plugin_update_abort` performs no action either. -/
theorem c5_two_phase_update_pure (what : Nat) :
    parser_plugin_update_prepare what =
      ((if what &&& IPX_PU_IEMGR = 0 then IpxCode.ok else IpxCode.ready),
        []) ∧
    parser_plugin_update_abort = [] := by
  refine ⟨?_, rfl⟩
  by_cases h : what &&& IPX_PU_IEMGR = 0 <;> simp [parser_plugin_update_prepare, h]

/-! ### C7 -/

/-- C7: a format error reported for a message on a UDP (connectionless)
session makes `parser_plugin_process_ipfix` destroy just that message and
return `IPX_OK`; the trace contains no removal, block or feedback action
for the session, so the session stays usable. -/
theorem c7_udp_tolerance (env : IpfixEnv) (m : Nat) (g : Option Nat)
    (hres : env.processResult = (IpxCode.errFormat, m, g))
    (hudp : env.msgSession.type = SessionType.udp) :
    parser_plugin_process_ipfix env = (IpxCode.ok, [Act.ipfixDestroy m]) ∧
    ∀ a ∈ (parser_plugin_process_ipfix env).2,
      Act.mentions env.msgSession a = false := by
  have htrace : parser_plugin_process_ipfix env =
      (IpxCode.ok, [Act.ipfixDestroy m]) := by
    simp [parser_plugin_process_ipfix, hres, hudp]
  refine ⟨htrace, ?_⟩
  rw [htrace]
  intro a ha
  simp at ha
  subst ha
  rfl

/-- C7 witness: a concrete malformed message on a UDP session. -/
theorem c7_udp_tolerance_witness :
    parser_plugin_process_ipfix
        { processResult := (IpxCode.errFormat, 20, none), msgSession := tsUdp,
          remove := remEnvFbOk } =
      (IpxCode.ok, [Act.ipfixDestroy 20]) ∧
    ∀ a ∈ (parser_plugin_process_ipfix
        { processResult := (IpxCode.errFormat, 20, none), msgSession := tsUdp,
          remove := remEnvFbOk }).2,
      Act.mentions tsUdp a = false :=
  c7_udp_tolerance
    { processResult := (IpxCode.errFormat, 20, none), msgSession := tsUdp,
      remove := remEnvFbOk } 20 none rfl rfl

/-! ### C9 -/

/-- C9: with a non-null destructor, `ipx_msg_garbage_create` returns the
null handle exactly when envelope allocation fails; on success the handle
has type discriminant `IPX_MSG_GARBAGE` and stores exactly the given
object pointer and destructor; and the create trace never frees, mutates
or invokes anything on the wrapped object. -/
theorem c9_create_contract (allocOk : Bool) (object callback : Nat)
    (hcb : callback ≠ 0) :
    ((ipx_msg_garbage_create allocOk object callback).1 = none ↔
      allocOk = false) ∧
    (∀ m, (ipx_msg_garbage_create allocOk object callback).1 = some m →
      m.msg_header = MsgType.garbage ∧ m.object_ptr = object ∧
        m.object_destructor = callback) ∧
    (∀ a ∈ (ipx_msg_garbage_create allocOk object callback).2,
      (∀ cb obj, a ≠ GcAction.invokeDestructor cb obj) ∧
      (∀ obj, a ≠ GcAction.freeObject obj) ∧
      (∀ obj, a ≠ GcAction.writeObject obj)) := by
  clear hcb
  cases allocOk <;> simp [ipx_msg_garbage_create]

/-- C9 witness: a concrete successful allocation with destructor id 3. -/
theorem c9_create_contract_witness :
    ((ipx_msg_garbage_create true 8 3).1 = none ↔ true = false) ∧
    (∀ m, (ipx_msg_garbage_create true 8 3).1 = some m →
      m.msg_header = MsgType.garbage ∧ m.object_ptr = 8 ∧
        m.object_destructor = 3) ∧
    (∀ a ∈ (ipx_msg_garbage_create true 8 3).2,
      (∀ cb obj, a ≠ GcAction.invokeDestructor cb obj) ∧
      (∀ obj, a ≠ GcAction.freeObject obj) ∧
      (∀ obj, a ≠ GcAction.writeObject obj)) :=
  c9_create_contract true 8 3 (by decide)

/-! ### C10 -/

/-- C10: on the no-feedback path, `parser_plugin_remove_session` returns
`IPX_OK` unconditionally — whatever code the Registry's remove reports —
and a garbage message is forwarded exactly when the removal succeeded and
yielded a non-null garbage message. -/
theorem c10_hard_remove_always_ok (env : RemoveEnv) (ts : Session)
    (h : env.feedback = false) :
    (parser_plugin_remove_session env ts).1 = IpxCode.ok ∧
    (∀ g : Nat,
      Act.msgPass g ∈ (parser_plugin_remove_session env ts).2 ↔
        env.sessionRemoveResult ts = (IpxCode.ok, some g)) := by
  rcases hr : env.sessionRemoveResult ts with ⟨rc, garbage⟩
  cases rc <;> cases garbage <;>
    simp [parser_plugin_remove_session, h, hr, eq_comm]

/-- C10 witness: a concrete hard remove where the Registry reports
not-found; the result is still `IPX_OK` and nothing is forwarded. -/
theorem c10_hard_remove_always_ok_witness :
    (parser_plugin_remove_session
        { feedback := false,
          sessionRemoveResult := fun _ => (IpxCode.errNotfound, none),
          fpipeWriteResult := fun _ => IpxCode.ok } tsTcp).1 = IpxCode.ok ∧
    (∀ g : Nat,
      Act.msgPass g ∈ (parser_plugin_remove_session
        { feedback := false,
          sessionRemoveResult := fun _ => (IpxCode.errNotfound, none),
          fpipeWriteResult := fun _ => IpxCode.ok } tsTcp).2 ↔
        (IpxCode.errNotfound, (none : Option Nat)) =
          (IpxCode.ok, some g)) :=
  c10_hard_remove_always_ok
    { feedback := false,
      sessionRemoveResult := fun _ => (IpxCode.errNotfound, none),
      fpipeWriteResult := fun _ => IpxCode.ok } tsTcp rfl

/-! ### C3 -/

/-- C3: a fatal parse error (not success, not a denial, and not the
tolerated UDP format error — the session's transport is reliable) with a
feedback pipe available makes the IPFIX handler block the session in the
Registry and emit exactly one close-request on the feedback channel; the
returned code is `IPX_OK` when the feedback write succeeds and the fatal
`IPX_ERR_ARG` when it fails. -/
theorem c3_reliable_escalation (env : IpfixEnv) (rc : IpxCode) (m : Nat)
    (g : Option Nat)
    (hres : env.processResult = (rc, m, g))
    (hok : rc ≠ IpxCode.ok)
    (hden : rc ≠ IpxCode.errDenied)
    (hrel : env.msgSession.type ≠ SessionType.udp)
    (hfb : env.remove.feedback = true) :
    Act.sessionBlock env.msgSession ∈ (parser_plugin_process_ipfix env).2 ∧
    (parser_plugin_process_ipfix env).2.count
      (Act.fpipeWrite env.msgSession) = 1 ∧
    (parser_plugin_process_ipfix env).1 =
      (if env.remove.fpipeWriteResult env.msgSession = IpxCode.ok
       then IpxCode.ok else IpxCode.errArg) := by
  have hne : ¬(rc = IpxCode.errFormat ∧
      env.msgSession.type = SessionType.udp) := by
    rintro ⟨_, h2⟩
    exact hrel h2
  by_cases hw : env.remove.fpipeWriteResult env.msgSession = IpxCode.ok <;>
    simp [parser_plugin_process_ipfix, parser_plugin_remove_session, hres,
      hok, hden, hne, hfb, hw, List.count_cons, List.count_append]

/-- C3 witness: a concrete format error on a TCP session with a working
feedback pipe. -/
theorem c3_reliable_escalation_witness :
    Act.sessionBlock tsTcp ∈ (parser_plugin_process_ipfix
        { processResult := (IpxCode.errFormat, 21, none), msgSession := tsTcp,
          remove := remEnvFbOk }).2 ∧
    (parser_plugin_process_ipfix
        { processResult := (IpxCode.errFormat, 21, none), msgSession := tsTcp,
          remove := remEnvFbOk }).2.count (Act.fpipeWrite tsTcp) = 1 ∧
    (parser_plugin_process_ipfix
        { processResult := (IpxCode.errFormat, 21, none), msgSession := tsTcp,
          remove := remEnvFbOk }).1 =
      (if remEnvFbOk.fpipeWriteResult tsTcp = IpxCode.ok
       then IpxCode.ok else IpxCode.errArg) :=
  c3_reliable_escalation
    { processResult := (IpxCode.errFormat, 21, none), msgSession := tsTcp,
      remove := remEnvFbOk } IpxCode.errFormat 21 none rfl
    (by decide) (by decide) (by decide) rfl

/-! ### C6 -/

/-- `parser_plugin_process_session` returns `IPX_OK` on every input. -/
theorem process_session_always_ok (env : SessionMsgEnv) :
    (parser_plugin_process_session env).1 = IpxCode.ok := by
  rcases hr : env.sessionRemoveResult with ⟨rc, g⟩
  by_cases he : env.event = SessionEvent.close <;>
    cases rc <;> cases g <;>
      simp [parser_plugin_process_session, he, hr]

/-- C6: for a Session-event message, non-close events are ignored; on a
close event the Registry's remove is invoked, a garbage message produced
by a successful removal is forwarded, and an unknown session (Registry
reports `IPX_ERR_NOTFOUND`, deterministically the same on every repeated
close) only yields the remove call and a log line — no state-mutating
action; in every case `parser_plugin_process` re-forwards the original
session-event message after the handler's actions and returns
`IPX_OK`. -/
theorem c6_session_close_handling (env : ProcessEnv)
    (h : env.msgType = MsgType.session) :
    (env.sessionEnv.event ≠ SessionEvent.close →
      parser_plugin_process_session env.sessionEnv = (IpxCode.ok, [])) ∧
    (env.sessionEnv.event = SessionEvent.close →
      Act.sessionRemoveCall env.sessionEnv.session
          env.sessionEnv.sessionRemoveResult.1
        ∈ (parser_plugin_process_session env.sessionEnv).2 ∧
      (∀ g, env.sessionEnv.sessionRemoveResult = (IpxCode.ok, some g) →
        Act.msgPass g ∈ (parser_plugin_process_session env.sessionEnv).2) ∧
      (env.sessionEnv.sessionRemoveResult.1 = IpxCode.errNotfound →
        parser_plugin_process_session env.sessionEnv =
          (IpxCode.ok,
            [Act.sessionRemoveCall env.sessionEnv.session
              IpxCode.errNotfound, Act.logWarning]) ∧
        ∀ a ∈ (parser_plugin_process_session env.sessionEnv).2,
          a.isStateMutation = false)) ∧
    parser_plugin_process env =
      (IpxCode.ok,
        (parser_plugin_process_session env.sessionEnv).2 ++
          [Act.msgPass env.msgId]) := by
  refine ⟨?_, ?_, ?_⟩
  · intro hne
    simp [parser_plugin_process_session, hne]
  · intro hcl
    rcases hr : env.sessionEnv.sessionRemoveResult with ⟨rc, g⟩
    refine ⟨?_, ?_, ?_⟩
    · cases rc <;> cases g <;>
        simp [parser_plugin_process_session, hcl, hr]
    · intro g' hg
      injection hg with h1 h2
      subst h1
      subst h2
      simp [parser_plugin_process_session, hcl, hr]
    · intro hnf
      simp at hnf
      subst hnf
      cases g <;>
        constructor <;>
          simp [parser_plugin_process_session, hcl, hr, Act.isStateMutation]
  · have hok := process_session_always_ok env.sessionEnv
    rcases hps : parser_plugin_process_session env.sessionEnv with ⟨rc, acts⟩
    rw [hps] at hok
    simp at hok
    subst hok
    simp [parser_plugin_process, h, hps]

/-- Concrete environment for the C6 witness: a close event for a session
the Registry does not know. -/
def c6Env : ProcessEnv :=
  { msgType := MsgType.session
    msgId := 30
    ipfixEnv :=
      { processResult := (IpxCode.ok, 0, none), msgSession := tsTcp,
        remove := remEnvNoFb }
    sessionEnv :=
      { event := SessionEvent.close, session := tsTcp,
        sessionRemoveResult := (IpxCode.errNotfound, none) } }

/-- C6 witness: closing an unknown session logs, mutates nothing, and the
original message is still re-forwarded with an `IPX_OK` result. -/
theorem c6_session_close_handling_witness :
    (c6Env.sessionEnv.event ≠ SessionEvent.close →
      parser_plugin_process_session c6Env.sessionEnv = (IpxCode.ok, [])) ∧
    (c6Env.sessionEnv.event = SessionEvent.close →
      Act.sessionRemoveCall c6Env.sessionEnv.session
          c6Env.sessionEnv.sessionRemoveResult.1
        ∈ (parser_plugin_process_session c6Env.sessionEnv).2 ∧
      (∀ g, c6Env.sessionEnv.sessionRemoveResult = (IpxCode.ok, some g) →
        Act.msgPass g ∈ (parser_plugin_process_session c6Env.sessionEnv).2) ∧
      (c6Env.sessionEnv.sessionRemoveResult.1 = IpxCode.errNotfound →
        parser_plugin_process_session c6Env.sessionEnv =
          (IpxCode.ok,
            [Act.sessionRemoveCall c6Env.sessionEnv.session
              IpxCode.errNotfound, Act.logWarning]) ∧
        ∀ a ∈ (parser_plugin_process_session c6Env.sessionEnv).2,
          a.isStateMutation = false)) ∧
    parser_plugin_process c6Env =
      (IpxCode.ok,
        (parser_plugin_process_session c6Env.sessionEnv).2 ++
          [Act.msgPass c6Env.msgId]) :=
  c6_session_close_handling c6Env rfl

/-! ### C8 -/

/-- The condition under which `parser_plugin_process_ipfix` takes the
session-removal path: the parse neither succeeded nor was denied, and the
failure is not the tolerated UDP format error. -/
def takesRemovalPath (env : IpfixEnv) : Prop :=
  env.processResult.1 ≠ IpxCode.ok ∧
  env.processResult.1 ≠ IpxCode.errDenied ∧
  ¬(env.processResult.1 = IpxCode.errFormat ∧
    env.msgSession.type = SessionType.udp)

instance (env : IpfixEnv) : Decidable (takesRemovalPath env) := by
  unfold takesRemovalPath
  infer_instance

/-- Return-code characterisation of `parser_plugin_remove_session`: the
fatal `IPX_ERR_ARG` appears exactly when a feedback pipe exists and its
write fails. -/
theorem remove_session_code (env : RemoveEnv) (ts : Session) :
    (parser_plugin_remove_session env ts).1 =
      (if env.feedback = false then IpxCode.ok
       else if env.fpipeWriteResult ts = IpxCode.ok then IpxCode.ok
       else IpxCode.errArg) := by
  rcases hsr : env.sessionRemoveResult ts with ⟨rc, g⟩
  by_cases h : env.feedback = false <;>
    by_cases hw : env.fpipeWriteResult ts = IpxCode.ok <;>
      simp [parser_plugin_remove_session, h, hw, hsr]

/-- Return-code characterisation of `parser_plugin_process_ipfix`. -/
theorem process_ipfix_code (env : IpfixEnv) :
    (parser_plugin_process_ipfix env).1 =
      (if takesRemovalPath env ∧ env.remove.feedback = true ∧
          env.remove.fpipeWriteResult env.msgSession ≠ IpxCode.ok
       then IpxCode.errArg else IpxCode.ok) := by
  rcases hres : env.processResult with ⟨rc, m, g⟩
  have hpath : takesRemovalPath env ↔
      (rc ≠ IpxCode.ok ∧ rc ≠ IpxCode.errDenied ∧
        ¬(rc = IpxCode.errFormat ∧
          env.msgSession.type = SessionType.udp)) := by
    unfold takesRemovalPath
    rw [hres]
  by_cases h1 : rc = IpxCode.ok
  · subst h1
    simp [parser_plugin_process_ipfix, hres, hpath]
  · by_cases h2 : rc = IpxCode.errDenied
    · subst h2
      simp [parser_plugin_process_ipfix, hres, hpath]
    · by_cases h3 : rc = IpxCode.errFormat ∧
          env.msgSession.type = SessionType.udp
      · simp [parser_plugin_process_ipfix, hres, hpath, h1, h2, h3]
      · rcases hrm : parser_plugin_remove_session env.remove env.msgSession
          with ⟨rc2, acts⟩
        have hcode := remove_session_code env.remove env.msgSession
        rw [hrm] at hcode
        have hrc2 : rc2 =
            (if env.remove.feedback = false then IpxCode.ok
             else if env.remove.fpipeWriteResult env.msgSession = IpxCode.ok
               then IpxCode.ok else IpxCode.errArg) := hcode
        simp only [parser_plugin_process_ipfix, hres, hrm, if_neg h1,
          if_neg h2, if_neg h3]
        by_cases h4 : env.remove.feedback = false
        · simp [hrc2, h4, hpath, h1, h2, h3]
        · have h4' : env.remove.feedback = true := by
            revert h4
            cases env.remove.feedback <;> simp
          by_cases h5 : env.remove.fpipeWriteResult env.msgSession = IpxCode.ok
            <;> simp [hrc2, h4, h4', h5, hpath, h1, h2, h3]

/-- Return-code characterisation of `parser_plugin_process`: the host
sees `IPX_ERR_NOMEM` exactly when an IPFIX message took the removal path
with a feedback pipe whose write failed, and `IPX_OK` otherwise. -/
theorem process_code (env : ProcessEnv) :
    (parser_plugin_process env).1 =
      (if env.msgType = MsgType.ipfix ∧ takesRemovalPath env.ipfixEnv ∧
          env.ipfixEnv.remove.feedback = true ∧
          env.ipfixEnv.remove.fpipeWriteResult env.ipfixEnv.msgSession ≠
            IpxCode.ok
       then IpxCode.errNomem else IpxCode.ok) := by
  cases henv : env.msgType
  case ipfix =>
    have hcode := process_ipfix_code env.ipfixEnv
    rcases hpi : parser_plugin_process_ipfix env.ipfixEnv with ⟨rc, acts⟩
    rw [hpi] at hcode
    simp only at hcode
    by_cases hc : takesRemovalPath env.ipfixEnv ∧
        env.ipfixEnv.remove.feedback = true ∧
        env.ipfixEnv.remove.fpipeWriteResult env.ipfixEnv.msgSession ≠
          IpxCode.ok
    · rw [if_pos hc] at hcode
      subst hcode
      simp [parser_plugin_process, henv, hpi, hc]
    · rw [if_neg hc] at hcode
      subst hcode
      simp [parser_plugin_process, henv, hpi, hc]
  case session =>
    have hok := process_session_always_ok env.sessionEnv
    rcases hps : parser_plugin_process_session env.sessionEnv with ⟨rc, acts⟩
    rw [hps] at hok
    simp at hok
    subst hok
    simp [parser_plugin_process, henv, hps]
  case garbage =>
    simp [parser_plugin_process, henv]
  case terminate =>
    simp [parser_plugin_process, henv]

/-- C8: `parser_plugin_process` returns either `IPX_OK` or
`IPX_ERR_NOMEM`; a denied IPFIX message is destroyed and dropped with no
log line and an `IPX_OK` result; and the fatal/no-memory signal is
returned iff the session-removal path was taken and its feedback-channel
write failed. -/
theorem c8_return_contract (env : ProcessEnv) :
    ((parser_plugin_process env).1 = IpxCode.ok ∨
      (parser_plugin_process env).1 = IpxCode.errNomem) ∧
    ((parser_plugin_process env).1 = IpxCode.errNomem ↔
      env.msgType = MsgType.ipfix ∧ takesRemovalPath env.ipfixEnv ∧
        env.ipfixEnv.remove.feedback = true ∧
        env.ipfixEnv.remove.fpipeWriteResult env.ipfixEnv.msgSession ≠
          IpxCode.ok) ∧
    (env.msgType = MsgType.ipfix →
      env.ipfixEnv.processResult.1 = IpxCode.errDenied →
      parser_plugin_process env =
        (IpxCode.ok,
          [Act.ipfixDestroy env.ipfixEnv.processResult.2.1])) := by
  have hcode := process_code env
  refine ⟨?_, ?_, ?_⟩
  · rw [hcode]
    by_cases hc : env.msgType = MsgType.ipfix ∧ takesRemovalPath env.ipfixEnv ∧
        env.ipfixEnv.remove.feedback = true ∧
        env.ipfixEnv.remove.fpipeWriteResult env.ipfixEnv.msgSession ≠
          IpxCode.ok
    · exact Or.inr (if_pos hc)
    · exact Or.inl (if_neg hc)
  · rw [hcode]
    by_cases hc : env.msgType = MsgType.ipfix ∧ takesRemovalPath env.ipfixEnv ∧
        env.ipfixEnv.remove.feedback = true ∧
        env.ipfixEnv.remove.fpipeWriteResult env.ipfixEnv.msgSession ≠
          IpxCode.ok
    · simp [if_pos hc, hc]
    · simp [if_neg hc, hc]
  · intro h1 h2
    rcases hres : env.ipfixEnv.processResult with ⟨rc, m, g⟩
    rw [hres] at h2
    simp at h2
    subst h2
    simp [parser_plugin_process, parser_plugin_process_ipfix, h1, hres]

/-- C8 witness: a denied IPFIX message on a blocked session is silently
dropped with an `IPX_OK` result. -/
theorem c8_return_contract_witness :
    ((parser_plugin_process
        { msgType := MsgType.ipfix, msgId := 40,
          ipfixEnv :=
            { processResult := (IpxCode.errDenied, 41, none),
              msgSession := tsTcp, remove := remEnvFbOk },
          sessionEnv := c6Env.sessionEnv }).1 = IpxCode.ok ∨
      (parser_plugin_process
        { msgType := MsgType.ipfix, msgId := 40,
          ipfixEnv :=
            { processResult := (IpxCode.errDenied, 41, none),
              msgSession := tsTcp, remove := remEnvFbOk },
          sessionEnv := c6Env.sessionEnv }).1 = IpxCode.errNomem) ∧
    ((parser_plugin_process
        { msgType := MsgType.ipfix, msgId := 40,
          ipfixEnv :=
            { processResult := (IpxCode.errDenied, 41, none),
              msgSession := tsTcp, remove := remEnvFbOk },
          sessionEnv := c6Env.sessionEnv }).1 = IpxCode.errNomem ↔
      MsgType.ipfix = MsgType.ipfix ∧
        takesRemovalPath
          { processResult := (IpxCode.errDenied, 41, none),
            msgSession := tsTcp, remove := remEnvFbOk } ∧
        remEnvFbOk.feedback = true ∧
        remEnvFbOk.fpipeWriteResult tsTcp ≠ IpxCode.ok) ∧
    (MsgType.ipfix = MsgType.ipfix →
      (IpxCode.errDenied, 41, (none : Option Nat)).1 = IpxCode.errDenied →
      parser_plugin_process
        { msgType := MsgType.ipfix, msgId := 40,
          ipfixEnv :=
            { processResult := (IpxCode.errDenied, 41, none),
              msgSession := tsTcp, remove := remEnvFbOk },
          sessionEnv := c6Env.sessionEnv } =
        (IpxCode.ok, [Act.ipfixDestroy 41])) :=
  c8_return_contract
    { msgType := MsgType.ipfix, msgId := 40,
      ipfixEnv :=
        { processResult := (IpxCode.errDenied, 41, none),
          msgSession := tsTcp, remove := remEnvFbOk },
      sessionEnv := c6Env.sessionEnv }

/-! ### C2 -/

/-- A second TCP session, distinct from `tsTcp`, used in the commit
cascade scenario. -/
def c2s2 : Session := { ident := 3, type := SessionType.tcp }

/-- Commit environment in which the Registry rebind fails, two sessions
are known, and every feedback write fails, so the first closure already
fails. -/
def c2CommitEnv : CommitEnv :=
  { ieSourceResult := (IpxCode.errNomem, none)
    sessions := [tsTcp, c2s2]
    remove := remEnvFbBad }

/-- The status the shared accumulator ends with after the failure
callback has run over the given sessions: `IPX_OK` while every closure
succeeds, otherwise the code of the first failing closure. -/
def closeStatus (rem : RemoveEnv) : List Session → IpxCode
  | [] => IpxCode.ok
  | ts :: rest =>
    if (parser_plugin_remove_session rem ts).1 = IpxCode.ok
    then closeStatus rem rest
    else (parser_plugin_remove_session rem ts).1

/-- The sessions for which the failure callback actually runs the
hard-close path: all sessions up to and including the first one whose
closure fails; later sessions are skipped by the short-circuit. -/
def attemptedSessions (rem : RemoveEnv) : List Session → List Session
  | [] => []
  | ts :: rest =>
    if (parser_plugin_remove_session rem ts).1 = IpxCode.ok
    then ts :: attemptedSessions rem rest
    else [ts]

/-- Once the shared status is non-OK the failure callback is a no-op for
every remaining session. -/
theorem fold_fail_cb_stuck (rem : RemoveEnv) (ss : List Session)
    (st : IpxCode × List Act) (h : st.1 ≠ IpxCode.ok) :
    ss.foldl (parser_plugin_update_fail_cb rem) st = st := by
  induction ss generalizing st with
  | nil => rfl
  | cons ts rest ih =>
    rw [List.foldl_cons]
    have hstep : parser_plugin_update_fail_cb rem st ts = st := by
      simp [parser_plugin_update_fail_cb, h]
    rw [hstep]
    exact ih st h

/-- Characterisation of the failure-callback fold: the final status is
`closeStatus` and the trace is the concatenation of the removal traces of
exactly the attempted sessions. -/
theorem fold_fail_cb_run (rem : RemoveEnv) (ss : List Session)
    (acts : List Act) :
    ss.foldl (parser_plugin_update_fail_cb rem) (IpxCode.ok, acts) =
      (closeStatus rem ss,
        acts ++ (attemptedSessions rem ss).flatMap
          (fun ts => (parser_plugin_remove_session rem ts).2)) := by
  induction ss generalizing acts with
  | nil => simp [closeStatus, attemptedSessions]
  | cons ts rest ih =>
    rw [List.foldl_cons]
    rcases hrm : parser_plugin_remove_session rem ts with ⟨rc, a⟩
    by_cases hok : rc = IpxCode.ok
    · subst hok
      have hstep : parser_plugin_update_fail_cb rem (IpxCode.ok, acts) ts =
          (IpxCode.ok, acts ++ a) := by
        simp [parser_plugin_update_fail_cb, hrm]
      rw [hstep, ih]
      simp [closeStatus, attemptedSessions, hrm]
    · have hstep : parser_plugin_update_fail_cb rem (IpxCode.ok, acts) ts =
          (rc, acts ++ a) := by
        simp [parser_plugin_update_fail_cb, hrm, hok]
      rw [hstep, fold_fail_cb_stuck rem rest _ (by simpa using hok)]
      simp [closeStatus, attemptedSessions, hrm, hok]

/-- The accumulator status is `IPX_OK` iff every session's closure
succeeds. -/
theorem closeStatus_ok_iff (rem : RemoveEnv) (ss : List Session) :
    closeStatus rem ss = IpxCode.ok ↔
      ∀ ts ∈ ss, (parser_plugin_remove_session rem ts).1 = IpxCode.ok := by
  induction ss with
  | nil => simp [closeStatus]
  | cons ts rest ih =>
    by_cases h : (parser_plugin_remove_session rem ts).1 = IpxCode.ok
    · simp [closeStatus, h, ih]
    · simp [closeStatus, h]

/-- C2 counterexample: in `c2CommitEnv` the rebind fails and `c2s2` is a
known session, yet after the first session's closure fails no action at
all concerns `c2s2` — its hard-close is never attempted, refuting
"the hard-close path is attempted for every known session".  The denial
status is returned as the claim predicts. -/
theorem c2_commit_skips_after_failure :
    c2s2 ∈ c2CommitEnv.sessions ∧
    c2CommitEnv.ieSourceResult.1 ≠ IpxCode.ok ∧
    (parser_plugin_update_commit c2CommitEnv).1 = IpxCode.errDenied ∧
    (parser_plugin_update_commit c2CommitEnv).2.filter
      (Act.mentions c2s2) = [] := by
  decide

/-- C2 amended: when the rebind fails, the failure callback attempts the
hard-close path for the known sessions in order only until the first
failing closure (the shared status short-circuits, skipping the
remaining sessions); the commit's trace is exactly the removal traces of
the attempted sessions, and `update_commit` returns the denial status iff
at least one session's closure fails (otherwise `IPX_OK`). -/
theorem c2_commit_cascade_amended (env : CommitEnv)
    (h : env.ieSourceResult.1 ≠ IpxCode.ok) :
    ((parser_plugin_update_commit env).1 = IpxCode.errDenied ↔
      ∃ ts ∈ env.sessions,
        (parser_plugin_remove_session env.remove ts).1 ≠ IpxCode.ok) ∧
    ((parser_plugin_update_commit env).1 = IpxCode.errDenied ∨
      (parser_plugin_update_commit env).1 = IpxCode.ok) ∧
    (parser_plugin_update_commit env).2 =
      (attemptedSessions env.remove env.sessions).flatMap
        (fun ts => (parser_plugin_remove_session env.remove ts).2) := by
  rcases hie : env.ieSourceResult with ⟨rc, g⟩
  rw [hie] at h
  have hrc : rc ≠ IpxCode.ok := by simpa using h
  have hC : parser_plugin_update_commit env =
      ((if closeStatus env.remove env.sessions = IpxCode.ok then IpxCode.ok
        else IpxCode.errDenied),
        (attemptedSessions env.remove env.sessions).flatMap
          (fun ts => (parser_plugin_remove_session env.remove ts).2)) := by
    by_cases hcs : closeStatus env.remove env.sessions = IpxCode.ok <;>
      simp [parser_plugin_update_commit, hie, hrc, fold_fail_cb_run, hcs]
  rw [hC]
  refine ⟨?_, ?_, rfl⟩
  · by_cases hcs : closeStatus env.remove env.sessions = IpxCode.ok
    · have hall := (closeStatus_ok_iff env.remove env.sessions).1 hcs
      rw [if_pos hcs]
      refine iff_of_false (by simp) ?_
      push_neg
      exact hall
    · have hnall := mt (closeStatus_ok_iff env.remove env.sessions).2 hcs
      rw [if_neg hcs]
      refine iff_of_true rfl ?_
      push_neg at hnall
      exact hnall
  · by_cases hcs : closeStatus env.remove env.sessions = IpxCode.ok <;>
      simp [hcs]

/-- C2 amended witness: the concrete cascade environment. -/
theorem c2_commit_cascade_amended_witness :
    ((parser_plugin_update_commit c2CommitEnv).1 = IpxCode.errDenied ↔
      ∃ ts ∈ c2CommitEnv.sessions,
        (parser_plugin_remove_session c2CommitEnv.remove ts).1 ≠
          IpxCode.ok) ∧
    ((parser_plugin_update_commit c2CommitEnv).1 = IpxCode.errDenied ∨
      (parser_plugin_update_commit c2CommitEnv).1 = IpxCode.ok) ∧
    (parser_plugin_update_commit c2CommitEnv).2 =
      (attemptedSessions c2CommitEnv.remove c2CommitEnv.sessions).flatMap
        (fun ts => (parser_plugin_remove_session c2CommitEnv.remove ts).2) :=
  c2_commit_cascade_amended c2CommitEnv (by decide)
